import Mathlib

/-!
Verification of the declarative `DefaultErrorHandler`
(airbyte_cdk/sources/declarative/requesters/error_handlers/default_error_handler.py)
against its natural-language specification.

The handler itself is embedded from the source file.  Its collaborators
(`HttpResponseFilter`, `ExponentialBackoffStrategy`, the resolution value
types) live in repository files that are not available here, so those are
modelled from the specification text and marked as such in their doc
comments.  The third-party `requests.Response.ok` property is embedded with
the semantics of the `requests` library itself: `raise_for_status` raises
only for status codes in [400, 600), so `ok` holds exactly when the status
code is outside that range.
-/

/-- Modelled from the spec: `ResponseAction` (response_models.py is not under
src/).  The four actions SUCCESS, RETRY, FAIL, IGNORE. -/
inductive ResponseAction where
  | SUCCESS
  | RETRY
  | FAIL
  | IGNORE
  deriving DecidableEq, Repr

/-- Modelled from the spec: `FailureType` (response_models.py is not under
src/).  Classifies why a failure happened, for downstream reporting. -/
inductive FailureType where
  | system_error
  | config_error
  | transient_error
  deriving DecidableEq, Repr

/-- Modelled from the spec: `ErrorResolution` (response_models.py is not under
src/).  Immutable value carrying an action, an optional failure type and an
optional operator-facing message. -/
structure ErrorResolution where
  response_action : ResponseAction
  failure_type : Option FailureType
  error_message : Option String
  deriving DecidableEq, Repr

/-- Modelled from the spec: the fixed `SUCCESS_RESOLUTION` constant
(response_models.py is not under src/). -/
def SUCCESS_RESOLUTION : ErrorResolution :=
  { response_action := ResponseAction.SUCCESS
    failure_type := none
    error_message := none }

/-- Modelled from the spec: the fixed `DEFAULT_ERROR_RESOLUTION` constant
(response_models.py is not under src/): action RETRY, failure type
TRANSIENT. -/
def DEFAULT_ERROR_RESOLUTION : ErrorResolution :=
  { response_action := ResponseAction.RETRY
    failure_type := some FailureType.transient_error
    error_message := none }

/-- Request identity (`requests.PreparedRequest`), reduced to a comparable
identifier. -/
abbrev RequestId := Nat

/-- An HTTP response: status code, headers, body and the originating request
identity, as exposed by `requests.Response`. -/
structure HttpResponse where
  status_code : Nat
  headers : List (String × String)
  body : String
  request : RequestId
  deriving DecidableEq, Repr

/-- `requests.Response.ok`: true iff `raise_for_status` would not raise.
`raise_for_status` raises `HTTPError` exactly for status codes in
[400, 600), so every other status code (including all 3xx) is `ok`. -/
def HttpResponse.ok (r : HttpResponse) : Bool :=
  !(decide (400 ≤ r.status_code ∧ r.status_code < 600))

/-- A transport exception: kind and message, as visible through
`str(exception)`. -/
structure ExceptionInfo where
  kind : String
  message : String
  deriving DecidableEq, Repr

/-- The argument type of `interpret_response`:
`Optional[Union[requests.Response, Exception]]`.  `null` embeds Python's
`None`. -/
inductive Outcome where
  | response (r : HttpResponse)
  | exception (e : ExceptionInfo)
  | null
  deriving Repr

/-- Haystack list starts with the needle list. -/
def charsStartWith : List Char → List Char → Bool
  | _, [] => true
  | [], _ :: _ => false
  | a :: as, b :: bs => a == b && charsStartWith as bs

/-- Haystack list contains the needle list as a contiguous run. -/
def charsContain : List Char → List Char → Bool
  | [], needle => needle.isEmpty
  | hay@(_ :: rest), needle => charsStartWith hay needle || charsContain rest needle

/-- Python's `needle in hay` on strings: case-sensitive substring
containment. -/
def strContains (hay needle : String) : Bool :=
  charsContain hay.data needle.data

/-- A configured wait duration, in seconds. -/
abbrev Duration := ℚ

/-- Modelled from the spec: `BackoffStrategy` (backoff_strategy.py is not
under src/) is a stateless or attempt-parameterized function from the
outcome and attempt number to an optional duration. -/
abbrev BackoffStrategy := Outcome → Nat → Option Duration

/-- Modelled from the spec: `ExponentialBackoffStrategy`
(backoff_strategies/exponential_backoff_strategy.py is not under src/):
`duration = base * 2 ^ (attemptCount - 1)`, with attempt counts at most 0
treated as attempt 1. -/
def ExponentialBackoffStrategy (factor : Duration) : BackoffStrategy :=
  fun _ attempt_count => some (factor * 2 ^ (attempt_count - 1))

/-- Modelled from the spec: the default base of the exponential strategy
installed when the caller supplies no strategies. -/
def defaultExponentialStrategy : BackoffStrategy :=
  ExponentialBackoffStrategy 5

/-- External configuration mapping, opaque to the handler logic. -/
abbrev Config := List (String × String)

/-- Modelled from the spec: `HttpResponseFilter`
(http_response_filter.py is not under src/).  A single predicate+action
rule: HTTP codes to match, an optional error-message substring, an optional
predicate over the outcome, the action to take, and optional failure type
and message for the produced resolution.  `catch_all` marks the implicit
default filter appended at construction, which matches any non-2xx status. -/
structure HttpResponseFilter where
  action : ResponseAction
  http_codes : List Nat
  error_message_contains : Option String
  predicate : Option (Outcome → Bool)
  failure_type : Option FailureType
  error_message : Option String
  catch_all : Bool

/-- Modelled from the spec: the failure type inferred from the action when
the filter leaves it unset; retryable and ignorable outcomes are reported as
transient, fatal ones as system errors. -/
def FailureType.fromAction : ResponseAction → FailureType
  | ResponseAction.FAIL => FailureType.system_error
  | _ => FailureType.transient_error

/-- Modelled from the spec: `HttpResponseFilter.matches`.  A filter matches
if any of its configured conditions that are present evaluates true: status
code membership, case-sensitive substring containment in the response body
or exception message, or the predicate; a filter with no conditions never
matches on its own, except the implicit default catch-all, which matches any
non-2xx status.  On a match it returns the resolution built from the
filter's action, its failure type (inferred from the action if unset) and
its message. -/
def HttpResponseFilter.matches (f : HttpResponseFilter) (o : Outcome) :
    Option ErrorResolution :=
  let substringHit : String → Bool := fun text =>
    match f.error_message_contains with
    | some needle => strContains text needle
    | none => false
  let predicateHit : Bool :=
    match f.predicate with
    | some p => p o
    | none => false
  let matched : Bool :=
    match o with
    | Outcome.response r =>
        f.http_codes.contains r.status_code
          || substringHit r.body
          || predicateHit
          || (f.catch_all
              && !(decide (200 ≤ r.status_code ∧ r.status_code < 300)))
    | Outcome.exception e => substringHit e.message || predicateHit
    | Outcome.null => false
  if matched then
    some { response_action := f.action
           failure_type := some (f.failure_type.getD (FailureType.fromAction f.action))
           error_message := f.error_message }
  else
    none

/-- Modelled from the spec: the implicit default catch-all filter appended
after all user-supplied filters (`HttpResponseFilter(config=self.config,
parameters=\x7b\x7d)`): no explicit conditions, action RETRY, matching any
non-2xx status. -/
def defaultResponseFilter : HttpResponseFilter :=
  { action := ResponseAction.RETRY
    http_codes := []
    error_message_contains := none
    predicate := none
    failure_type := none
    error_message := none
    catch_all := true }

/-- The attempt-count bookkeeping: a mapping from request identity to the
number of non-ok responses seen for it. -/
abbrev AttemptMap := List (RequestId × Nat)

/-- Dictionary lookup. -/
def AttemptMap.get? (m : AttemptMap) (k : RequestId) : Option Nat :=
  match m with
  | [] => none
  | (k', v) :: rest => if k' = k then some v else AttemptMap.get? rest k

/-- In-place increment of the entry at `k` (`self._last_request_to_attempt_count[request] += 1`). -/
def AttemptMap.incr (m : AttemptMap) (k : RequestId) : AttemptMap :=
  match m with
  | [] => []
  | (k', v) :: rest =>
      if k' = k then (k', v + 1) :: rest else (k', v) :: AttemptMap.incr rest k

/-- State of a `DefaultErrorHandler` instance: the fields set by
`__post_init__` plus the mutable attempt-count mapping. -/
structure DefaultErrorHandler where
  config : Config
  response_filters : List HttpResponseFilter
  max_retries : Option Nat
  max_time : Nat
  backoff_strategies : List BackoffStrategy
  last_request_to_attempt_count : AttemptMap

/-- `DefaultErrorHandler.__post_init__`: the user filters (or `[]`) with the
default catch-all filter appended; the default exponential strategy
installed when the supplied strategy list is `None` or empty (Python
truthiness of `self.backoff_strategies`); an empty attempt map. -/
def DefaultErrorHandler.build (config : Config)
    (response_filters : Option (List HttpResponseFilter))
    (max_retries : Option Nat) (max_time : Nat)
    (backoff_strategies : Option (List BackoffStrategy)) :
    DefaultErrorHandler :=
  { config := config
    response_filters := response_filters.getD [] ++ [defaultResponseFilter]
    max_retries := max_retries
    max_time := max_time
    backoff_strategies :=
      match backoff_strategies with
      | none => [defaultExponentialStrategy]
      | some [] => [defaultExponentialStrategy]
      | some bs => bs
    last_request_to_attempt_count := [] }

/-- The filter loop in `interpret_response`: return the first filter's
`matches` result that is not `None`. -/
def firstFilterMatch : List HttpResponseFilter → Outcome → Option ErrorResolution
  | [], _ => none
  | f :: fs, o =>
      match f.matches o with
      | some res => some res
      | none => firstFilterMatch fs o

/-- `DefaultErrorHandler.interpret_response`, with the mutation of
`self._last_request_to_attempt_count` made explicit by returning the updated
handler.  For an ok response it returns `SUCCESS_RESOLUTION` untouched;
for a non-ok response it first updates the attempt map (replacing the whole
dict by a singleton when the request is absent, incrementing in place
otherwise), then runs the filter loop; for anything that is not a
`requests.Response` it falls through to `DEFAULT_ERROR_RESOLUTION`. -/
def DefaultErrorHandler.interpret_response (h : DefaultErrorHandler)
    (response_or_exception : Outcome) :
    ErrorResolution × DefaultErrorHandler :=
  match response_or_exception with
  | Outcome.response r =>
      if r.ok then
        (SUCCESS_RESOLUTION, h)
      else
        let request := r.request
        let m := h.last_request_to_attempt_count
        let m' :=
          if (m.get? request).isNone then [(request, 1)] else m.incr request
        let h' := { h with last_request_to_attempt_count := m' }
        match firstFilterMatch h.response_filters response_or_exception with
        | some matched_status => (matched_status, h')
        | none => (DEFAULT_ERROR_RESOLUTION, h')
  | _ => (DEFAULT_ERROR_RESOLUTION, h)

/-- The truthiness test `if backoff:` applied to an optional float: `None`
and `0.0` are falsy, every other duration truthy. -/
def backoffTruthy : Option Duration → Bool
  | none => false
  | some x => decide (x ≠ 0)

/-- The strategy loop in `backoff_time`: `backoff` starts at `None`, each
strategy's result is stored in it, a truthy result returns immediately, and
after the loop the last stored value is returned. -/
def backoffLoop (o : Outcome) (attempt_count : Nat) :
    List BackoffStrategy → Option Duration → Option Duration
  | [], backoff => backoff
  | s :: rest, _ =>
      let backoff := s o attempt_count
      if backoffTruthy backoff then backoff else backoffLoop o attempt_count rest backoff

/-- `DefaultErrorHandler.backoff_time`: run the strategy loop over
`self.backoff_strategies` (an empty list returns the initial `None`). -/
def DefaultErrorHandler.backoff_time (h : DefaultErrorHandler)
    (response_or_exception : Outcome) (attempt_count : Nat) : Option Duration :=
  backoffLoop response_or_exception attempt_count h.backoff_strategies none

/-! ## Helper lemmas shared between claims -/

/-- A response with a status code in [400, 600) is not `ok`. -/
theorem ok_false_of_error_status (r : HttpResponse)
    (h4 : 400 ≤ r.status_code) (h6 : r.status_code < 600) : r.ok = false := by
  unfold HttpResponse.ok
  simp only [Bool.not_eq_false', decide_eq_true_eq]
  omega

/-- A response with a status code below 400 is `ok`. -/
theorem ok_true_of_low_status (r : HttpResponse)
    (hlt : r.status_code < 400) : r.ok = true := by
  unfold HttpResponse.ok
  simp only [Bool.not_eq_true', decide_eq_false_iff_not]
  omega

/-- `interpret_response` on an ok response: SUCCESS, state untouched. -/
theorem interpret_response_of_ok (h : DefaultErrorHandler) (r : HttpResponse)
    (hok : r.ok = true) :
    h.interpret_response (Outcome.response r) = (SUCCESS_RESOLUTION, h) := by
  simp [DefaultErrorHandler.interpret_response, hok]

/-- `interpret_response` on a non-ok response: the attempt map is updated
(reset to a singleton when the request is absent, incremented otherwise) and
the result is the first filter match, defaulting to
`DEFAULT_ERROR_RESOLUTION`. -/
theorem interpret_response_of_not_ok (h : DefaultErrorHandler) (r : HttpResponse)
    (hok : r.ok = false) :
    h.interpret_response (Outcome.response r) =
      ((firstFilterMatch h.response_filters (Outcome.response r)).getD
          DEFAULT_ERROR_RESOLUTION,
        { h with
          last_request_to_attempt_count :=
            if (h.last_request_to_attempt_count.get? r.request).isNone then
              [(r.request, 1)]
            else
              h.last_request_to_attempt_count.incr r.request }) := by
  simp only [DefaultErrorHandler.interpret_response, hok, Bool.false_eq_true, if_false]
  cases firstFilterMatch h.response_filters (Outcome.response r) <;> rfl

/-- Incrementing a present key bumps its value by one. -/
theorem AttemptMap.get_incr_self (m : AttemptMap) (k : RequestId) (n : Nat)
    (hn : m.get? k = some n) : (m.incr k).get? k = some (n + 1) := by
  induction m with
  | nil => simp [AttemptMap.get?] at hn
  | cons p rest ih =>
    obtain ⟨k', v⟩ := p
    by_cases hk : k' = k
    · subst hk
      simp [AttemptMap.get?, AttemptMap.incr] at hn ⊢
      omega
    · simp only [AttemptMap.get?, AttemptMap.incr, if_neg hk] at hn ⊢
      exact ih hn

/-- Incrementing one key leaves every other key's value unchanged. -/
theorem AttemptMap.get_incr_other (m : AttemptMap) (k j : RequestId)
    (hj : j ≠ k) : (m.incr k).get? j = m.get? j := by
  induction m with
  | nil => rfl
  | cons p rest ih =>
    obtain ⟨k', v⟩ := p
    by_cases hk : k' = k
    · have hkj : ¬ (k' = j) := fun hcontra => hj (hcontra ▸ hk)
      simp [AttemptMap.get?, AttemptMap.incr, hk, hkj, Ne.symm hj]
    · simp only [AttemptMap.incr, if_neg hk, AttemptMap.get?]
      by_cases hj' : k' = j
      · simp [hj']
      · simp only [if_neg hj']
        exact ih

/-! ## Claim theorems -/

/-- Claim C7: for every HTTP response with status code in [200, 299) and
every filter configuration, `interpret_response` returns the fixed SUCCESS
resolution immediately, consulting no filter and leaving the attempt-count
mapping (indeed the whole handler state) unchanged. -/
theorem interpret_response_success_on_2xx (h : DefaultErrorHandler)
    (r : HttpResponse) (h200 : 200 ≤ r.status_code) (h299 : r.status_code < 299) :
    h.interpret_response (Outcome.response r) = (SUCCESS_RESOLUTION, h) :=
  interpret_response_of_ok h r (ok_true_of_low_status r (by omega))

/-- Claim C7 witness: a 204 response on a handler with a user filter that
would match it still resolves to SUCCESS with the handler unchanged. -/
theorem interpret_response_success_on_2xx_witness :
    (200 ≤ 204 ∧ 204 < 299) ∧
    (DefaultErrorHandler.build []
        (some [{ action := ResponseAction.FAIL, http_codes := [204],
                 error_message_contains := none, predicate := none,
                 failure_type := none, error_message := none, catch_all := false }])
        (some 5) 600 none).interpret_response
        (Outcome.response { status_code := 204, headers := [], body := "", request := 0 }) =
      (SUCCESS_RESOLUTION,
        DefaultErrorHandler.build []
          (some [{ action := ResponseAction.FAIL, http_codes := [204],
                   error_message_contains := none, predicate := none,
                   failure_type := none, error_message := none, catch_all := false }])
          (some 5) 600 none) :=
  ⟨⟨by decide, by decide⟩,
    interpret_response_success_on_2xx _ _ (by decide) (by decide)⟩

/-- Claim C1 counterexample: a 304 response (status ≥ 300) on a handler
constructed with no caller-supplied filters resolves to SUCCESS, not RETRY,
because `requests.Response.ok` is true for every status below 400. -/
theorem interpret_response_304_counterexample :
    300 ≤ 304 ∧
    ((DefaultErrorHandler.build [] none (some 5) 600 none).interpret_response
        (Outcome.response { status_code := 304, headers := [], body := "", request := 0 })).1 =
      SUCCESS_RESOLUTION ∧
    SUCCESS_RESOLUTION.response_action ≠ ResponseAction.RETRY :=
  ⟨by decide, rfl, by decide⟩

/-- Claim C1 (amended): for every HTTP response with status code in
[400, 600) — the statuses `requests` marks as not ok — a handler constructed
with no caller-supplied response filters resolves to action RETRY via the
implicit default catch-all filter. -/
theorem interpret_response_retry_on_error_default (config : Config)
    (mr : Option Nat) (mt : Nat) (bs : Option (List BackoffStrategy))
    (r : HttpResponse) (h4 : 400 ≤ r.status_code) (h6 : r.status_code < 600) :
    (((DefaultErrorHandler.build config none mr mt bs).interpret_response
        (Outcome.response r)).1).response_action = ResponseAction.RETRY := by
  have hok : r.ok = false := ok_false_of_error_status r h4 h6
  have hn2 : decide (200 ≤ r.status_code ∧ r.status_code < 300) = false := by
    simp only [decide_eq_false_iff_not]
    omega
  rw [interpret_response_of_not_ok _ r hok]
  simp [DefaultErrorHandler.build, firstFilterMatch, HttpResponseFilter.matches,
    defaultResponseFilter, hn2]

/-- Claim C1 (amended) witness: a 503 response with no configured filters
resolves to RETRY. -/
theorem interpret_response_retry_on_error_default_witness :
    (400 ≤ 503 ∧ 503 < 600) ∧
    (((DefaultErrorHandler.build [] none (some 5) 600 none).interpret_response
        (Outcome.response { status_code := 503, headers := [], body := "", request := 0 })).1).response_action =
      ResponseAction.RETRY :=
  ⟨⟨by decide, by decide⟩,
    interpret_response_retry_on_error_default [] (some 5) 600 none _ (by decide) (by decide)⟩

/-- Claim C5 counterexample: `interpret_response(None)` does not fail
loudly; it returns the default resolution, whose action is RETRY. -/
theorem interpret_response_null_counterexample :
    ((DefaultErrorHandler.build [] none (some 5) 600 none).interpret_response
        Outcome.null).1 = DEFAULT_ERROR_RESOLUTION ∧
    DEFAULT_ERROR_RESOLUTION.response_action = ResponseAction.RETRY :=
  ⟨rfl, rfl⟩

/-- Claim C5 (amended): for an input that is neither an HTTP response nor an
exception (Python `None`), `interpret_response` raises nothing and returns
`DEFAULT_ERROR_RESOLUTION` (action RETRY) with the handler state
unchanged. -/
theorem interpret_response_null_default (h : DefaultErrorHandler) :
    h.interpret_response Outcome.null = (DEFAULT_ERROR_RESOLUTION, h) ∧
    DEFAULT_ERROR_RESOLUTION.response_action = ResponseAction.RETRY :=
  ⟨rfl, rfl⟩

/-- Claim C2 counterexample: a configured substring filter with action
IGNORE does match an exception whose message contains the substring, but
`interpret_response` never consults filters for exceptions: it returns the
default RETRY resolution instead of the filter's action. -/
theorem interpret_response_exception_counterexample :
    (HttpResponseFilter.matches
        { action := ResponseAction.IGNORE, http_codes := [],
          error_message_contains := some "retrythisrequest!", predicate := none,
          failure_type := none, error_message := none, catch_all := false }
        (Outcome.exception { kind := "RequestError",
                             message := "oops retrythisrequest! happened" })).map
        ErrorResolution.response_action = some ResponseAction.IGNORE ∧
    ((DefaultErrorHandler.build []
        (some [{ action := ResponseAction.IGNORE, http_codes := [],
                 error_message_contains := some "retrythisrequest!", predicate := none,
                 failure_type := none, error_message := none, catch_all := false }])
        (some 5) 600 none).interpret_response
        (Outcome.exception { kind := "RequestError",
                             message := "oops retrythisrequest! happened" })).1.response_action =
      ResponseAction.RETRY ∧
    ResponseAction.RETRY ≠ ResponseAction.IGNORE :=
  ⟨by decide, rfl, by decide⟩

/-- Claim C2 (amended): for every exception outcome, `interpret_response`
returns `DEFAULT_ERROR_RESOLUTION` without evaluating the filter chain and
without touching the handler state; substring filters are therefore only
ever evaluated against responses, not exceptions. -/
theorem interpret_response_exception_default (h : DefaultErrorHandler)
    (e : ExceptionInfo) :
    h.interpret_response (Outcome.exception e) = (DEFAULT_ERROR_RESOLUTION, h) ∧
    DEFAULT_ERROR_RESOLUTION.response_action = ResponseAction.RETRY :=
  ⟨rfl, rfl⟩

/-- Claim C3 counterexample: after a non-2xx response for request 1 the map
holds attempt count 1 for it, but a following non-2xx response for the
distinct request 2 erases that entry (the code replaces the whole dict by a
singleton), so interleaved identities do not keep independent counts. -/
theorem attempt_count_interleave_counterexample :
    (((DefaultErrorHandler.build [] none (some 5) 600 none).interpret_response
          (Outcome.response { status_code := 500, headers := [], body := "", request := 1 })).2.last_request_to_attempt_count.get?
        1 = some 1) ∧
    (((((DefaultErrorHandler.build [] none (some 5) 600 none).interpret_response
          (Outcome.response { status_code := 500, headers := [], body := "", request := 1 })).2).interpret_response
          (Outcome.response { status_code := 500, headers := [], body := "", request := 2 })).2.last_request_to_attempt_count.get?
        1 = none) :=
  ⟨rfl, rfl⟩

/-- Claim C3 (amended): on a non-ok response, when the outcome's request
identity is already tracked its count is incremented in place and every
other identity keeps its previous value; when it is absent the whole map is
replaced by the singleton mapping that identity to 1, discarding all other
entries. -/
theorem interpret_response_attempt_update (h : DefaultErrorHandler)
    (r : HttpResponse) (h4 : 400 ≤ r.status_code) (h6 : r.status_code < 600) :
    (h.last_request_to_attempt_count.get? r.request = none →
      ((h.interpret_response (Outcome.response r)).2).last_request_to_attempt_count =
        [(r.request, 1)]) ∧
    (∀ n, h.last_request_to_attempt_count.get? r.request = some n →
      (((h.interpret_response (Outcome.response r)).2).last_request_to_attempt_count.get?
          r.request = some (n + 1)) ∧
      (∀ k, k ≠ r.request →
        ((h.interpret_response (Outcome.response r)).2).last_request_to_attempt_count.get? k =
          h.last_request_to_attempt_count.get? k)) := by
  have hok : r.ok = false := ok_false_of_error_status r h4 h6
  rw [interpret_response_of_not_ok h r hok]
  constructor
  · intro habs
    simp [habs]
  · intro n hn
    have hpres : (h.last_request_to_attempt_count.get? r.request).isNone = false := by
      rw [hn]; rfl
    refine ⟨?_, ?_⟩
    · simp only [hpres, Bool.false_eq_true, if_false]
      exact AttemptMap.get_incr_self _ _ _ hn
    · intro k hk
      simp only [hpres, Bool.false_eq_true, if_false]
      exact AttemptMap.get_incr_other _ _ _ hk

/-- Claim C3 (amended) witness: two consecutive 500 responses for request 7
count 1 then 2, and the second call leaves the entry of an unrelated
identity in place. -/
theorem interpret_response_attempt_update_witness :
    (400 ≤ 500 ∧ 500 < 600) ∧
    ((({ config := [], response_filters := [defaultResponseFilter],
         max_retries := some 5, max_time := 600,
         backoff_strategies := [defaultExponentialStrategy],
         last_request_to_attempt_count := [(9, 4), (7, 1)] } :
          DefaultErrorHandler).interpret_response
        (Outcome.response { status_code := 500, headers := [], body := "", request := 7 })).2.last_request_to_attempt_count.get?
      7 = some 2) ∧
    ((({ config := [], response_filters := [defaultResponseFilter],
         max_retries := some 5, max_time := 600,
         backoff_strategies := [defaultExponentialStrategy],
         last_request_to_attempt_count := [(9, 4), (7, 1)] } :
          DefaultErrorHandler).interpret_response
        (Outcome.response { status_code := 500, headers := [], body := "", request := 7 })).2.last_request_to_attempt_count.get?
      9 = some 4) := by
  refine ⟨⟨by decide, by decide⟩, ?_, ?_⟩
  · exact ((interpret_response_attempt_update _ _ (by decide) (by decide)).2 1 (by decide)).1
  · exact ((interpret_response_attempt_update _ _ (by decide) (by decide)).2 1 (by decide)).2 9 (by decide)

/-- Claim C4: evaluation of the code at the failing input.  With a first
strategy returning duration 0 and a second returning 5, `backoff_time`
returns 5: the truthiness test `if backoff:` treats 0.0 like `None` and
skips it, although the handler docstring promises the first non-None
backoff time. -/
theorem backoff_time_skips_zero :
    (DefaultErrorHandler.build [] none (some 5) 600
        (some [fun _ _ => some (0 : Duration), fun _ _ => some (5 : Duration)])).backoff_time
        Outcome.null 1 = some (5 : Duration) ∧
    (5 : Duration) ≠ 0 := by
  constructor
  · simp [DefaultErrorHandler.build, DefaultErrorHandler.backoff_time,
      backoffLoop, backoffTruthy]
  · norm_num

/-- Claim C6 counterexample: a 304 response is non-2xx and is matched by the
first configured filter (304 → IGNORE), yet `interpret_response` returns
SUCCESS because `requests.Response.ok` holds for every status below 400, so
the filter chain is never consulted. -/
theorem first_match_304_counterexample :
    (HttpResponseFilter.matches
        { action := ResponseAction.IGNORE, http_codes := [304],
          error_message_contains := none, predicate := none,
          failure_type := none, error_message := none, catch_all := false }
        (Outcome.response { status_code := 304, headers := [], body := "", request := 0 })).map
        ErrorResolution.response_action = some ResponseAction.IGNORE ∧
    ((DefaultErrorHandler.build []
        (some [{ action := ResponseAction.IGNORE, http_codes := [304],
                 error_message_contains := none, predicate := none,
                 failure_type := none, error_message := none, catch_all := false }])
        (some 5) 600 none).interpret_response
        (Outcome.response { status_code := 304, headers := [], body := "", request := 0 })).1.response_action =
      ResponseAction.SUCCESS ∧
    ResponseAction.SUCCESS ≠ ResponseAction.IGNORE :=
  ⟨by decide, rfl, by decide⟩

/-- Claim C6 (amended): for every response with a status code in [400, 600)
and every filter list, `interpret_response` returns the resolution of the
first filter in list order that matches the outcome; no later filter can
override an earlier matching one. -/
theorem interpret_response_first_match_wins (h : DefaultErrorHandler)
    (r : HttpResponse) (h4 : 400 ≤ r.status_code) (h6 : r.status_code < 600)
    (res : ErrorResolution)
    (hm : firstFilterMatch h.response_filters (Outcome.response r) = some res) :
    (h.interpret_response (Outcome.response r)).1 = res := by
  rw [interpret_response_of_not_ok h r (ok_false_of_error_status r h4 h6), hm]
  rfl

/-- Claim C6 (amended) witness: with filters [404 → IGNORE, 404 → RETRY], a
404 response resolves to IGNORE, the first match. -/
theorem interpret_response_first_match_wins_witness :
    (400 ≤ 404 ∧ 404 < 600) ∧
    ((DefaultErrorHandler.build []
        (some [{ action := ResponseAction.IGNORE, http_codes := [404],
                 error_message_contains := none, predicate := none,
                 failure_type := none, error_message := none, catch_all := false },
               { action := ResponseAction.RETRY, http_codes := [404],
                 error_message_contains := none, predicate := none,
                 failure_type := none, error_message := none, catch_all := false }])
        (some 5) 600 none).interpret_response
        (Outcome.response { status_code := 404, headers := [], body := "", request := 0 })).1 =
      { response_action := ResponseAction.IGNORE,
        failure_type := some FailureType.transient_error,
        error_message := none } :=
  ⟨⟨by decide, by decide⟩,
    interpret_response_first_match_wins _ _ (by decide) (by decide) _ (by decide)⟩

/-- Claim C8: the stored attempt-count mapping never influences the outputs.
Two handler states differing only in the mapping produce the same resolution
from `interpret_response` and the same duration from `backoff_time`. -/
theorem outputs_independent_of_attempt_map (h : DefaultErrorHandler)
    (m₁ m₂ : AttemptMap) (o : Outcome) (n : Nat) :
    (({ h with last_request_to_attempt_count := m₁ } :
        DefaultErrorHandler).interpret_response o).1 =
      (({ h with last_request_to_attempt_count := m₂ } :
        DefaultErrorHandler).interpret_response o).1 ∧
    ({ h with last_request_to_attempt_count := m₁ } :
        DefaultErrorHandler).backoff_time o n =
      ({ h with last_request_to_attempt_count := m₂ } :
        DefaultErrorHandler).backoff_time o n := by
  constructor
  · cases o with
    | response r =>
      by_cases hok : r.ok = true
      · rw [interpret_response_of_ok _ r hok, interpret_response_of_ok _ r hok]
      · have hok' : r.ok = false := by
          cases hr : r.ok with
          | true => exact absurd hr hok
          | false => rfl
        rw [interpret_response_of_not_ok _ r hok', interpret_response_of_not_ok _ r hok']
    | exception e => rfl
    | null => rfl
  · rfl

/-- `interpret_response` can change only the attempt-count field: all other
handler fields are returned unchanged. -/
theorem interpret_response_frame (h : DefaultErrorHandler) (o : Outcome) :
    ((h.interpret_response o).2).config = h.config ∧
    ((h.interpret_response o).2).response_filters = h.response_filters ∧
    ((h.interpret_response o).2).max_retries = h.max_retries ∧
    ((h.interpret_response o).2).max_time = h.max_time ∧
    ((h.interpret_response o).2).backoff_strategies = h.backoff_strategies := by
  cases o with
  | response r =>
    by_cases hok : r.ok = true
    · rw [interpret_response_of_ok _ r hok]
      exact ⟨rfl, rfl, rfl, rfl, rfl⟩
    · have hok' : r.ok = false := by
        cases hr : r.ok with
        | true => exact absurd hr hok
        | false => rfl
      rw [interpret_response_of_not_ok _ r hok']
      exact ⟨rfl, rfl, rfl, rfl, rfl⟩
  | exception e => exact ⟨rfl, rfl, rfl, rfl, rfl⟩
  | null => exact ⟨rfl, rfl, rfl, rfl, rfl⟩

/-- Claim C9: after construction the filter list is the user-supplied
filters in order followed by exactly one appended default catch-all filter,
the backoff-strategy list is the singleton default exponential strategy when
the caller supplied none, and neither list is re-derived or changed by any
later `interpret_response` call. -/
theorem build_appends_catch_all_and_default_strategy (config : Config)
    (ufs : Option (List HttpResponseFilter)) (mr : Option Nat) (mt : Nat) :
    (DefaultErrorHandler.build config ufs mr mt none).response_filters =
      ufs.getD [] ++ [defaultResponseFilter] ∧
    (DefaultErrorHandler.build config ufs mr mt none).backoff_strategies =
      [defaultExponentialStrategy] ∧
    ∀ o,
      (((DefaultErrorHandler.build config ufs mr mt none).interpret_response o).2).response_filters =
        ufs.getD [] ++ [defaultResponseFilter] ∧
      (((DefaultErrorHandler.build config ufs mr mt none).interpret_response o).2).backoff_strategies =
        [defaultExponentialStrategy] := by
  refine ⟨rfl, rfl, fun o => ?_⟩
  have hfr := interpret_response_frame (DefaultErrorHandler.build config ufs mr mt none) o
  exact ⟨hfr.2.1, hfr.2.2.2.2⟩

/-- A handler with fixed configuration and a variable attempt-count map,
used to instantiate frame statements. -/
def sampleHandler (m : AttemptMap) : DefaultErrorHandler :=
  { config := []
    response_filters := [defaultResponseFilter]
    max_retries := some 5
    max_time := 600
    backoff_strategies := [defaultExponentialStrategy]
    last_request_to_attempt_count := m }

/-- Claim C10: `backoff_time` reads only the strategy list and its explicit
arguments (handlers agreeing on strategies agree on its result, whatever
their other state), and `interpret_response` changes no handler state other
than the attempt-count mapping: configuration, filter list, retry limits and
strategy list are identical before and after the call. -/
theorem operations_frame (h h' : DefaultErrorHandler) (o : Outcome) (n : Nat)
    (hbs : h.backoff_strategies = h'.backoff_strategies) :
    h.backoff_time o n = h'.backoff_time o n ∧
    ((h.interpret_response o).2).config = h.config ∧
    ((h.interpret_response o).2).response_filters = h.response_filters ∧
    ((h.interpret_response o).2).max_retries = h.max_retries ∧
    ((h.interpret_response o).2).max_time = h.max_time ∧
    ((h.interpret_response o).2).backoff_strategies = h.backoff_strategies := by
  refine ⟨?_, interpret_response_frame h o⟩
  unfold DefaultErrorHandler.backoff_time
  rw [hbs]

/-- Claim C10 witness: two handlers differing only in the attempt map give
the same backoff duration, and a call on a 500 response leaves every field
but the map unchanged. -/
theorem operations_frame_witness :
    (sampleHandler [(1, 3)]).backoff_time Outcome.null 2 =
      (sampleHandler []).backoff_time Outcome.null 2 ∧
    (((sampleHandler [(1, 3)]).interpret_response Outcome.null).2).config =
      (sampleHandler [(1, 3)]).config ∧
    (((sampleHandler [(1, 3)]).interpret_response Outcome.null).2).response_filters =
      (sampleHandler [(1, 3)]).response_filters ∧
    (((sampleHandler [(1, 3)]).interpret_response Outcome.null).2).max_retries =
      (sampleHandler [(1, 3)]).max_retries ∧
    (((sampleHandler [(1, 3)]).interpret_response Outcome.null).2).max_time =
      (sampleHandler [(1, 3)]).max_time ∧
    (((sampleHandler [(1, 3)]).interpret_response Outcome.null).2).backoff_strategies =
      (sampleHandler [(1, 3)]).backoff_strategies :=
  operations_frame (sampleHandler [(1, 3)]) (sampleHandler []) Outcome.null 2 rfl
